import Mathlib

/-!
Shallow embedding of the guiascr-backend server (`src/server.js` together with
the bundled `database.js`).  Pure request handlers are modelled as Lean
functions from their inputs (headers, query, body, the in-memory OAuth state
map and the persistent store) to a response together with the updated state.
The keyed HMAC digests (`crypto.createHmac('sha256', SECRET)` in hex or
base64) and `jwt.decode` are external primitives that depend on the
environment-provided secret; they are passed as explicit function parameters,
so every theorem quantifies over them.
-/

/-! ## JavaScript string helpers -/

/-- Code-unit comparison of character lists, mirroring how JavaScript's
default `Array.prototype.sort` compares strings. -/
def charsLe : List Char → List Char → Bool
  | [], _ => true
  | _ :: _, [] => false
  | a :: as, b :: bs =>
    if a.toNat < b.toNat then true
    else if b.toNat < a.toNat then false
    else charsLe as bs

/-- String comparison used when sorting query keys. -/
def strLeb (a b : String) : Bool := charsLe a.data b.data

/-- Whether `pat` occurs at the head of `s` (JavaScript `String.startsWith`). -/
def leadsWith : List Char → List Char → Bool
  | [], _ => true
  | _ :: _, [] => false
  | a :: as, b :: bs => a == b && leadsWith as bs

/-- `s.startsWith pat` on strings. -/
def strLeads (s pat : String) : Bool := leadsWith pat.data s.data

/-- Remove the first occurrence of `pat` (JavaScript
`String.replace(pat, '')`, which replaces only the first match, wherever it
occurs). -/
def replaceFirstL (pat : List Char) : List Char → List Char
  | [] => []
  | c :: rest =>
    if leadsWith pat (c :: rest) then (c :: rest).drop pat.length
    else c :: replaceFirstL pat rest

/-- JavaScript `s.replace(pat, '')`. -/
def replaceFirst (s pat : String) : String := ⟨replaceFirstL pat.data s.data⟩

/-- JavaScript coercion of an optional query/header value into a string:
`undefined` interpolates as the literal text `undefined`. -/
def jsStr : Option String → String
  | none => "undefined"
  | some s => s

/-- Bytes of a string, used to feed digests with raw request bodies. -/
def strToBytes (s : String) : List Nat := s.data.map Char.toNat

/-- `JSON.stringify` of a Node `Buffer`: Buffers serialize as
`\x7b"type":"Buffer","data":[..bytes..]\x7d`. -/
def jsonStringifyBuffer (bytes : List Nat) : String :=
  "\x7b\"type\":\"Buffer\",\"data\":[" ++
    String.intercalate "," (bytes.map toString) ++ "]\x7d"

/-! ## Query objects (`req.query`) -/

/-- An Express query object: association list of key/value pairs. -/
abbrev Query := List (String × String)

/-- Property access `q[k]`: `none` models `undefined`. -/
def qLookup (q : Query) (k : String) : Option String :=
  (q.find? (fun p => p.1 == k)).map (·.2)

/-- `delete queryParams[k]`. -/
def qDelete (q : Query) (k : String) : Query :=
  q.filter (fun p => !(p.1 == k))

/-- Insertion step of sorting the entries by key. -/
def insertPair (x : String × String) : Query → Query
  | [] => [x]
  | y :: ys => if strLeb x.1 y.1 then x :: y :: ys else y :: insertPair x ys

/-- Sort query entries by key (`Object.keys(queryParams).sort()`). -/
def sortByKey (l : Query) : Query := l.foldr insertPair []

/-- The canonical query string the OAuth callback recomputes its HMAC over:
all query parameters except `hmac`, as `key=value` pairs sorted by key and
joined with `&` (server.js lines 111-116). -/
def canonQS (q : Query) : String :=
  String.intercalate "&"
    ((sortByKey (qDelete q "hmac")).map (fun p => p.1 ++ "=" ++ p.2))

/-! ## Persistent store (`database.js`) -/

/-- A row of the `shops` table. -/
structure ShopRec where
  shop : String
  accessToken : String
  scope : Option String
  installedAt : Nat
  uninstalledAt : Option Nat
  isActive : Bool
deriving DecidableEq

/-- A row of the `extension_keys` table. -/
structure KeyRec where
  id : String
  shop : String
  accessKey : String
  name : Option String
  lastUsedAt : Option Nat
  isActive : Bool
  createdAt : Nat
deriving DecidableEq

/-- A row of the `sender_configs` table.  Fields with a Sequelize
`defaultValue` of the string `1` are still optional at the type level; the
upsert fills the default in. -/
structure SenderRec where
  shop : String
  senderIdentificationType : Option String
  senderId : Option String
  senderName : Option String
  senderPhone : Option String
  senderMail : Option String
  provinciaSender : Option String
  cantonSender : Option String
  distritoSender : Option String
  senderPostalCode : Option String
  senderDirection : Option String
deriving DecidableEq

/-- The whole relational store. -/
structure Store where
  shops : List ShopRec
  keys : List KeyRec
  configs : List SenderRec
deriving DecidableEq

/-- `getShopSession`: `Shop.findOne(\x7bwhere: \x7bshop, isActive: true\x7d\x7d)`. -/
def getShopSession (shop : String) (store : Store) : Option ShopRec :=
  store.shops.find? (fun r => r.shop == shop && r.isActive)

/-- `saveShopSession`: `Shop.upsert` replacing the row keyed by `shop`, always
setting a fresh `installedAt`, clearing `uninstalledAt` and activating. -/
def saveShopSession (shop accessToken : String) (scope : Option String)
    (now : Nat) (store : Store) : Store :=
  { store with shops :=
      ⟨shop, accessToken, scope, now, none, true⟩ ::
        store.shops.filter (fun r => !(r.shop == shop)) }

/-- `deleteShopSession`: deactivates the shop row (setting `uninstalledAt`)
and deactivates every extension key of that shop. -/
def deleteShopSession (shop : String) (now : Nat) (store : Store) : Store :=
  { store with
    shops := store.shops.map (fun r =>
      if r.shop == shop then { r with isActive := false, uninstalledAt := some now } else r),
    keys := store.keys.map (fun k =>
      if k.shop == shop then { k with isActive := false } else k) }

/-- `createExtensionKey`: requires the shop to exist and be active (else it
throws, modelled as `none`), then inserts a fresh key row.  The random key
value and row id are passed in as parameters. -/
def createExtensionKeyOp (shop : String) (name : Option String)
    (genKey keyRowId : String) (now : Nat) (store : Store) : Option Store :=
  match getShopSession shop store with
  | none => none
  | some _ =>
      some { store with keys := store.keys ++ [⟨keyRowId, shop, genKey, name, none, true, now⟩] }

/-- The join condition of `validateExtensionKey`: a key row matching the
access key, itself active, whose owning shop row is active. -/
def keyJoinOk (store : Store) (accessKey : String) (k : KeyRec) : Bool :=
  k.accessKey == accessKey && k.isActive &&
    store.shops.any (fun s => s.shop == k.shop && s.isActive)

/-- `validateExtensionKey`: finds an active key row with an active owning
shop; on success stamps `lastUsedAt` on that row and returns the shop domain
with its stored access token. -/
def validateExtensionKey (accessKey : String) (now : Nat) (store : Store) :
    Option (String × String) × Store :=
  match store.keys.find? (keyJoinOk store accessKey) with
  | none => (none, store)
  | some k =>
      match store.shops.find? (fun s => s.shop == k.shop && s.isActive) with
      | none => (none, store)
      | some s =>
          (some (k.shop, s.accessToken),
           { store with keys := store.keys.map (fun k2 =>
               if k2.id == k.id then { k2 with lastUsedAt := some now } else k2) })

/-- `getShopExtensionKeys`: all active keys of a shop. -/
def getShopExtensionKeys (shop : String) (store : Store) : List KeyRec :=
  store.keys.filter (fun k => k.shop == shop && k.isActive)

/-- `revokeExtensionKey`: `ExtensionKey.update(\x7bisActive: false\x7d)` filtered
by BOTH the key value and the shop. -/
def revokeExtensionKey (accessKey shop : String) (store : Store) : Store :=
  { store with keys := store.keys.map (fun k =>
      if k.accessKey == accessKey && k.shop == shop then { k with isActive := false } else k) }

/-- Fields accepted in a sender-config write (`req.body`); `none` means the
field is absent from the request. -/
structure ConfigInput where
  senderIdentificationType : Option String
  senderId : Option String
  senderName : Option String
  senderPhone : Option String
  senderMail : Option String
  provinciaSender : Option String
  cantonSender : Option String
  distritoSender : Option String
  senderPostalCode : Option String
  senderDirection : Option String
deriving DecidableEq

/-- `saveSenderConfig`: `SenderConfig.upsert` replacing the row keyed by
`shop`; absent fields fall back to the model defaults (the string `1` for the
identification type and the three location codes, null otherwise). -/
def saveSenderConfig (shop : String) (c : ConfigInput) (store : Store) : Store :=
  let row : SenderRec :=
    ⟨shop,
     some (c.senderIdentificationType.getD "1"),
     c.senderId, c.senderName, c.senderPhone, c.senderMail,
     some (c.provinciaSender.getD "1"),
     some (c.cantonSender.getD "1"),
     some (c.distritoSender.getD "1"),
     c.senderPostalCode, c.senderDirection⟩
  { store with configs := row :: store.configs.filter (fun r => !(r.shop == shop)) }

/-- `getSenderConfig`: `SenderConfig.findOne(\x7bwhere: \x7bshop\x7d\x7d)`. -/
def getSenderConfig (shop : String) (store : Store) : Option SenderRec :=
  store.configs.find? (fun c => c.shop == shop)

/-- `database.js` ends with `module.exports = \x7b ... \x7d`; that export list does
NOT contain `deleteShopData`, although `server.js` destructures it from the
module.  The imported value is therefore `undefined`, modelled as `none`. -/
def deleteShopData : Option (String → Store → Store) := none

/-! ## In-memory OAuth state map (`temporaryStates`) -/

/-- A value of the `temporaryStates` map. -/
structure StoredState where
  state : String
  timestamp : Nat
deriving DecidableEq

/-- The `temporaryStates` map, keyed by `state_` ++ shop. -/
abbrev StateMap := List (String × StoredState)

/-- `temporaryStates.get k`. -/
def mapGet (m : StateMap) (k : String) : Option StoredState :=
  (m.find? (fun p => p.1 == k)).map (·.2)

/-- `temporaryStates.delete k`. -/
def mapDelete (m : StateMap) (k : String) : StateMap :=
  m.filter (fun p => !(p.1 == k))

/-- `temporaryStates.set k v`. -/
def mapSet (m : StateMap) (k : String) (v : StoredState) : StateMap :=
  (k, v) :: mapDelete m k

/-- The periodic sweep (server.js lines 54-61): runs every 300000 ms and
deletes every entry with `now - timestamp > 300000`. -/
def sweep (now : Nat) (m : StateMap) : StateMap :=
  m.filter (fun p => ¬ (now - p.2.timestamp > 300000))

/-! ## Environment configuration -/

/-- `SCOPES` constant from server.js. -/
def scopesConst : String := "read_orders,read_fulfillments"

/-- `SHOPIFY_API_KEY`; environment-provided, its value is irrelevant to every
verified property, so it is fixed arbitrarily. -/
def shopifyApiKey : String := "SHOPIFY_API_KEY"

/-- `APP_URL`; environment-provided default. -/
def appUrl : String := "http://localhost:3000"

/-! ## OAuth handshake (`/api/auth` and `/api/auth/callback`) -/

/-- Shop-domain pattern from server.js line 76. -/
def shopRegexOk (s : String) : Bool :=
  let suf := ".myshopify.com".data
  let d := s.data
  let pre := d.take (d.length - suf.length)
  (d.drop (d.length - suf.length) == suf) &&
    (match pre with
     | [] => false
     | c :: cs => isAlnumChar c && cs.all (fun x => isAlnumChar x || x == '-'))
where
  /-- `[a-zA-Z0-9]` character class. -/
  isAlnumChar (c : Char) : Bool :=
    (('a' ≤ c) && (c ≤ 'z')) || (('A' ≤ c) && (c ≤ 'Z')) || (('0' ≤ c) && (c ≤ '9'))

/-- Response of the `/api/auth` initiation handler. -/
inductive InitResp where
  | missingShop
  | invalidShop
  | authRedirect (url : String)
deriving DecidableEq

/-- The `/api/auth` handler: validates the shop domain, stores a fresh random
state (passed in as `newState`) under `state_` ++ shop with the current
timestamp, and redirects to the platform's authorization URL. -/
def authInitiate (newState : String) (now : Nat) (shopQ : Option String)
    (states : StateMap) : InitResp × StateMap :=
  match shopQ with
  | none => (.missingShop, states)
  | some shop =>
      if shop = "" then (.missingShop, states)
      else if ¬ shopRegexOk shop then (.invalidShop, states)
      else
        (.authRedirect
          ("https://" ++ shop ++ "/admin/oauth/authorize?client_id=" ++ shopifyApiKey ++
            "&scope=" ++ scopesConst ++ "&redirect_uri=" ++ appUrl ++
            "/api/auth/callback&state=" ++ newState),
         mapSet states ("state_" ++ shop) ⟨newState, now⟩)

/-- Responses of the OAuth callback handler. -/
inductive CbResp where
  | invalidState
  | hmacFailed
  | authError
  | appRedirect (url : String)
deriving DecidableEq

/-- HTTP status of each callback response. -/
def CbResp.status : CbResp → Nat
  | .invalidState => 403
  | .hmacFailed => 403
  | .authError => 500
  | .appRedirect _ => 302

/-- Full outcome of one OAuth callback request: the response, the resulting
state map and store, and whether the token exchange was attempted. -/
structure CbOutcome where
  resp : CbResp
  states : StateMap
  store : Store
  exchangeAttempted : Bool
deriving DecidableEq

/-- The `/api/auth/callback` handler (server.js lines 101-161).
`hmacHex` is the keyed hex HMAC-SHA256 primitive; `exchange` is the outcome
of the code-for-token POST to the platform (`none` models a thrown error);
`genKey`/`keyRowId` are the random values `createExtensionKey` draws. -/
def authCallback (hmacHex : List Nat → String)
    (exchange : Option (String × Option String))
    (genKey keyRowId : String) (now : Nat)
    (q : Query) (states : StateMap) (store : Store) : CbOutcome :=
  let shopS := jsStr (qLookup q "shop")
  let stateQ := qLookup q "state"
  let hmacQ := qLookup q "hmac"
  let key := "state_" ++ shopS
  match mapGet states key with
  | none => ⟨.invalidState, states, store, false⟩
  | some saved =>
      if ¬ (stateQ = some saved.state) then ⟨.invalidState, states, store, false⟩
      else
        let hash := hmacHex (strToBytes (canonQS q))
        if ¬ (some hash = hmacQ) then ⟨.hmacFailed, states, store, false⟩
        else
          let states2 := mapDelete states key
          match exchange with
          | none => ⟨.authError, states2, store, true⟩
          | some (accessToken, scope) =>
              let store1 := saveShopSession shopS accessToken scope now store
              match createExtensionKeyOp shopS (some "Access Key Inicial") genKey keyRowId now store1 with
              | none => ⟨.authError, states2, store1, true⟩
              | some store2 =>
                  ⟨.appRedirect ("https://" ++ shopS ++ "/admin/apps/" ++ shopifyApiKey),
                   states2, store2, true⟩

/-! ## Auth middlewares -/

/-- Outcome of an auth middleware: deny with a status and message, or grant,
attaching the shop domain and access token to the request. -/
inductive AuthResult where
  | denied (status : Nat) (msg : String)
  | granted (shop accessToken : String)
deriving DecidableEq

/-- The payload `jwt.decode` yields; only the `dest` claim is read. -/
structure JwtPayload where
  dest : Option String
deriving DecidableEq

/-- `verifySessionToken` middleware (server.js lines 167-208): extracts the
bearer token, decodes it WITHOUT verifying signature or expiry (the
`jwt.verify` call is commented out in the source), rejects a missing or
falsy `dest` claim, derives the shop with `dest.replace('https://', '')`
(first occurrence), and requires an active shop row. -/
def verifySessionToken (decode : String → Option JwtPayload)
    (authHeader : Option String) (store : Store) : AuthResult :=
  match authHeader with
  | none => .denied 401 "Missing authorization header"
  | some h =>
      if ¬ strLeads h "Bearer " then .denied 401 "Missing authorization header"
      else
        match decode (replaceFirst h "Bearer ") with
        | none => .denied 401 "Invalid token format"
        | some p =>
            match p.dest with
            | none => .denied 401 "Invalid token format"
            | some d =>
                if d = "" then .denied 401 "Invalid token format"
                else
                  let shop := replaceFirst d "https://"
                  match getShopSession shop store with
                  | none => .denied 401 "Shop not installed"
                  | some r =>
                      if ¬ r.isActive then .denied 401 "Shop not installed"
                      else .granted shop r.accessToken

/-- `verifyExtensionKey` middleware (server.js lines 214-244): extracts the
bearer token, requires the `sk_` lead, and validates it against the key
store; validation stamps `lastUsedAt`, so the store is threaded through. -/
def verifyExtensionKey (authHeader : Option String) (now : Nat)
    (store : Store) : AuthResult × Store :=
  match authHeader with
  | none => (.denied 401 "Missing authorization header", store)
  | some h =>
      if ¬ strLeads h "Bearer " then (.denied 401 "Missing authorization header", store)
      else
        let accessKey := replaceFirst h "Bearer "
        if ¬ strLeads accessKey "sk_" then (.denied 401 "Invalid access key format", store)
        else
          match validateExtensionKey accessKey now store with
          | (none, store2) => (.denied 401 "Invalid or revoked access key", store2)
          | (some (shop, tok), store2) => (.granted shop tok, store2)

/-! ## Webhook handlers -/

/-- `verifyShopifyWebhook` (server.js lines 44-51): base64 HMAC-SHA256 of the
raw body bytes (the `utf8` encoding argument is ignored for Buffers),
compared with the header by strict equality. -/
def verifyShopifyWebhook (hmacB64 : List Nat → String) (body : List Nat)
    (hmacHeader : Option String) : Bool :=
  hmacHeader == some (hmacB64 body)

/-- `POST /api/webhooks/app/uninstalled` (server.js lines 521-538): note the
digest is taken over `JSON.stringify(req.body)` where `req.body` is the raw
`Buffer`, i.e. over the Buffer's JSON serialization, not over the raw body
bytes. -/
def appUninstalled (hmacB64 : List Nat → String)
    (hmacHeader shopHeader : Option String) (body : List Nat) (now : Nat)
    (store : Store) : Nat × Store :=
  let hash := hmacB64 (strToBytes (jsonStringifyBuffer body))
  if ¬ (hmacHeader = some hash) then (403, store)
  else (200, deleteShopSession (jsStr shopHeader) now store)

/-- Result of running a handler whose body may throw without a local
try/catch: either a response was produced or an exception escaped. -/
inductive JsOutcome (α : Type) where
  | ok (a : α)
  | thrown (msg : String)
deriving DecidableEq

/-- `POST /api/webhooks/customers/redact` (server.js lines 641-657): verifies
the webhook HMAC (`401` on failure), parses the body and calls
`deleteShopData` — which `database.js` never exports, so the call throws a
`TypeError`; the handler has no try/catch, so the exception escapes.
`parseShopDomain` abstracts `JSON.parse(body).shop_domain`. -/
def customersRedact (hmacB64 : List Nat → String) (hmacHeader : Option String)
    (parseShopDomain : List Nat → Option String) (body : List Nat)
    (store : Store) : JsOutcome (Nat × Store) :=
  if ¬ verifyShopifyWebhook hmacB64 body hmacHeader then .ok (401, store)
  else
    let shopDomain := parseShopDomain body
    match deleteShopData with
    | none => .thrown "TypeError: deleteShopData is not a function"
    | some f => .ok (200, f (jsStr shopDomain) store)

/-! ## Sender-config and key-management endpoints -/

/-- The fixed projection the extension-facing config read returns
(server.js lines 492-506), as ordered field-name/value pairs. -/
def extConfigProjection (c : SenderRec) : List (String × Option String) :=
  [("senderIdentificationType", c.senderIdentificationType),
   ("senderId", c.senderId),
   ("senderName", c.senderName),
   ("senderPhone", c.senderPhone),
   ("senderMail", c.senderMail),
   ("provinciaSender", c.provinciaSender),
   ("cantonSender", c.cantonSender),
   ("distritoSender", c.distritoSender),
   ("senderPostalCode", c.senderPostalCode),
   ("senderDirection", c.senderDirection)]

/-- `GET /api/sender-config` (extension-key authenticated), given the
authenticated shop: `404` if no config row exists, else `200` with the fixed
projection. -/
def getSenderConfigExtension (shop : String) (store : Store) :
    Nat × Option (List (String × Option String)) :=
  match getSenderConfig shop store with
  | none => (404, none)
  | some c => (200, some (extConfigProjection c))

/-- `POST /api/sender-config` (extension-key authenticated), given the
authenticated shop: upserts the submitted config and answers `200`. -/
def postSenderConfig (shop : String) (c : ConfigInput) (store : Store) :
    Nat × Store :=
  (200, saveSenderConfig shop c store)

/-- `DELETE /api/app/extension-keys/:accessKey` (server.js lines 301-320):
session-token authenticated; revokes the named key scoped to the
authenticated shop and answers `200`. -/
def deleteExtensionKeyEndpoint (decode : String → Option JwtPayload)
    (authHeader : Option String) (accessKeyParam : String) (store : Store) :
    Nat × Store :=
  match verifySessionToken decode authHeader store with
  | .denied s _ => (s, store)
  | .granted shop _ => (200, revokeExtensionKey accessKeyParam shop store)

/-! ## Helper lemmas -/

/-- Deleting a key from the state map makes lookups of that key fail. -/
theorem mapGet_mapDelete_self (m : StateMap) (k : String) :
    mapGet (mapDelete m k) k = none := by
  induction m with
  | nil => rfl
  | cons p t ih =>
      by_cases hp : p.1 == k
      · simpa [mapDelete, List.filter, hp] using ih
      · simp only [mapDelete, List.filter, hp] at ih ⊢
        simp only [Bool.not_false, mapGet, List.find?, hp] at ih ⊢
        exact ih

/-- A found shop row is active. -/
theorem getShopSession_isActive {shop : String} {store : Store} {r : ShopRec}
    (h : getShopSession shop store = some r) : r.isActive = true := by
  have := List.find?_some h
  simp only [Bool.and_eq_true, beq_iff_eq] at this
  exact this.2

/-- A found shop row has the looked-up domain. -/
theorem getShopSession_shop {shop : String} {store : Store} {r : ShopRec}
    (h : getShopSession shop store = some r) : r.shop = shop := by
  have := List.find?_some h
  simp only [Bool.and_eq_true, beq_iff_eq] at this
  exact this.1

/-- Pointwise-identity maps leave a list unchanged. -/
theorem listMapId {α : Type} {f : α → α} {l : List α}
    (h : ∀ x ∈ l, f x = x) : l.map f = l := by
  induction l with
  | nil => rfl
  | cons a t ih =>
      simp only [List.map_cons, h a (by simp)]
      rw [ih (fun x hx => h x (by simp [hx]))]

/-- `find?` returns the element when it satisfies the predicate and is the
only element of the list doing so. -/
theorem find_uniq {α : Type} {p : α → Bool} {l : List α} {a : α}
    (ha : a ∈ l) (hpa : p a = true) (huniq : ∀ b ∈ l, p b = true → b = a) :
    l.find? p = some a := by
  induction l with
  | nil => cases ha
  | cons x t ih =>
      rcases List.mem_cons.mp ha with h | h
      · subst h
        simp [List.find?, hpa]
      · by_cases hx : p x = true
        · have := huniq x (by simp) hx
          subst this
          simp [List.find?, hpa]
        · simp only [List.find?, Bool.not_eq_true] at hx ⊢
          rw [hx]
          exact ih h (fun b hb hpb => huniq b (by simp [hb]) hpb)

/-! ## Sample data shared by witnesses -/

/-- A concrete callback query. -/
def qSample : Query :=
  [("code", "c0"), ("hmac", "h0"), ("shop", "foo.myshopify.com"), ("state", "st0")]

/-- A concrete pending-state map holding the state issued for the sample
shop. -/
def statesSample : StateMap := [("state_foo.myshopify.com", ⟨"st0", 0⟩)]

/-- A concrete store with one installed, active shop. -/
def storeSample : Store :=
  ⟨[⟨"foo.myshopify.com", "tok0", none, 0, none, true⟩], [], []⟩

/-! ## C1 -/

/-- C1: on every OAuth callback request whose supplied `hmac` query parameter
differs from the hex HMAC recomputed (with the shared secret) over the query
parameters excluding `hmac`, serialized as `key=value` pairs sorted by key
and joined with `&`, the handler responds 403, the pending-state map and the
store are unchanged, and the token exchange is never attempted. -/
theorem claimC1_callback_hmac_mismatch (hmacHex : List Nat → String)
    (exchange : Option (String × Option String)) (genKey keyRowId : String)
    (now : Nat) (q : Query) (states : StateMap) (store : Store)
    (h : ¬ (some (hmacHex (strToBytes (canonQS q))) = qLookup q "hmac")) :
    (authCallback hmacHex exchange genKey keyRowId now q states store).resp.status = 403 ∧
    (authCallback hmacHex exchange genKey keyRowId now q states store).states = states ∧
    (authCallback hmacHex exchange genKey keyRowId now q states store).store = store ∧
    (authCallback hmacHex exchange genKey keyRowId now q states store).exchangeAttempted = false := by
  unfold authCallback
  cases hm : mapGet states ("state_" ++ jsStr (qLookup q "shop")) with
  | none => simp [hm, CbResp.status]
  | some saved =>
      by_cases hs : qLookup q "state" = some saved.state
      · simp [hm, hs, h, CbResp.status]
      · simp [hm, hs, CbResp.status]

/-- Witness for C1 at a concrete input: the recomputed digest `zz` differs
from the supplied `h0`, and the callback answers 403 without touching any
state. -/
theorem claimC1_witness :
    (¬ (some ((fun _ : List Nat => "zz") (strToBytes (canonQS qSample))) = qLookup qSample "hmac")) ∧
    ((authCallback (fun _ => "zz") none "sk_g" "id0" 1 qSample statesSample storeSample).resp.status = 403 ∧
     (authCallback (fun _ => "zz") none "sk_g" "id0" 1 qSample statesSample storeSample).states = statesSample ∧
     (authCallback (fun _ => "zz") none "sk_g" "id0" 1 qSample statesSample storeSample).store = storeSample ∧
     (authCallback (fun _ => "zz") none "sk_g" "id0" 1 qSample statesSample storeSample).exchangeAttempted = false) :=
  ⟨by decide,
   claimC1_callback_hmac_mismatch (fun _ => "zz") none "sk_g" "id0" 1 qSample
     statesSample storeSample (by decide)⟩

/-! ## C5 -/

/-- C5: on every OAuth callback request for which no pending entry exists
under `state_` ++ shop, or the stored state differs from the supplied
`state` query parameter, the handler answers with the 403 state response and
performs neither the HMAC check, nor the token exchange, nor any
persistence: the state map and the store are returned untouched. -/
theorem claimC5_callback_state_check_first (hmacHex : List Nat → String)
    (exchange : Option (String × Option String)) (genKey keyRowId : String)
    (now : Nat) (q : Query) (states : StateMap) (store : Store)
    (h : ¬ ∃ saved, mapGet states ("state_" ++ jsStr (qLookup q "shop")) = some saved ∧
          qLookup q "state" = some saved.state) :
    authCallback hmacHex exchange genKey keyRowId now q states store =
      ⟨.invalidState, states, store, false⟩ ∧ CbResp.status .invalidState = 403 := by
  refine ⟨?_, rfl⟩
  unfold authCallback
  cases hm : mapGet states ("state_" ++ jsStr (qLookup q "shop")) with
  | none => simp [hm]
  | some saved =>
      have hs : ¬ (qLookup q "state" = some saved.state) := fun hc => h ⟨saved, hm, hc⟩
      simp [hm, hs]

/-- A concrete callback query whose `state` differs from the stored one. -/
def qBadState : Query :=
  [("hmac", "h0"), ("shop", "foo.myshopify.com"), ("state", "bad")]

/-- Witness for C5 at a concrete input: the supplied state `bad` differs from
the stored `st0`, so the callback is rejected before any other step. -/
theorem claimC5_witness :
    (¬ ∃ saved,
        mapGet statesSample ("state_" ++ jsStr (qLookup qBadState "shop")) = some saved ∧
        qLookup qBadState "state" = some saved.state) ∧
    (authCallback (fun _ => "h0") (some ("t", none)) "sk_g" "id0" 1 qBadState
        statesSample storeSample =
      ⟨.invalidState, statesSample, storeSample, false⟩ ∧
     CbResp.status .invalidState = 403) := by
  have h : ¬ ∃ saved,
      mapGet statesSample ("state_" ++ jsStr (qLookup qBadState "shop")) = some saved ∧
      qLookup qBadState "state" = some saved.state := by
    rintro ⟨saved, hget, hst⟩
    rw [show mapGet statesSample ("state_" ++ jsStr (qLookup qBadState "shop")) =
          some ⟨"st0", 0⟩ from by decide] at hget
    cases hget
    rw [show qLookup qBadState "state" = some "bad" from by decide] at hst
    exact absurd hst (by decide)
  exact ⟨h, claimC5_callback_state_check_first (fun _ => "h0") (some ("t", none))
    "sk_g" "id0" 1 qBadState statesSample storeSample h⟩

/-! ## C10 -/

/-- C10: when the state and HMAC checks of the OAuth callback succeed but the
token exchange fails, the handler answers 500 having already deleted the
pending state, the state is not restored, and retrying the identical
callback request (any exchange outcome, key material or time) is rejected
with the 403 state response. -/
theorem claimC10_state_consumed_on_failed_exchange (hmacHex : List Nat → String)
    (genKey keyRowId : String) (now : Nat) (q : Query) (states : StateMap)
    (store : Store) (saved : StoredState)
    (hGet : mapGet states ("state_" ++ jsStr (qLookup q "shop")) = some saved)
    (hState : qLookup q "state" = some saved.state)
    (hHmac : qLookup q "hmac" = some (hmacHex (strToBytes (canonQS q)))) :
    authCallback hmacHex none genKey keyRowId now q states store =
      ⟨.authError, mapDelete states ("state_" ++ jsStr (qLookup q "shop")), store, true⟩ ∧
    CbResp.status .authError = 500 ∧
    (∀ (exchange2 : Option (String × Option String)) (genKey2 keyRowId2 : String) (now2 : Nat),
      (authCallback hmacHex exchange2 genKey2 keyRowId2 now2 q
        (mapDelete states ("state_" ++ jsStr (qLookup q "shop"))) store).resp = .invalidState) ∧
    CbResp.status .invalidState = 403 := by
  refine ⟨?_, rfl, ?_, rfl⟩
  · unfold authCallback
    simp [hGet, hState, hHmac.symm]
  · intro exchange2 genKey2 keyRowId2 now2
    unfold authCallback
    simp [mapGet_mapDelete_self]

/-- Witness for C10: concrete callback whose state and HMAC match but whose
exchange fails; the pending entry is consumed and the retry is refused. -/
theorem claimC10_witness :
    (mapGet statesSample ("state_" ++ jsStr (qLookup qSample "shop")) =
      some ⟨"st0", 0⟩) ∧
    (qLookup qSample "state" = some (⟨"st0", 0⟩ : StoredState).state) ∧
    (qLookup qSample "hmac" = some ((fun _ : List Nat => "h0") (strToBytes (canonQS qSample)))) ∧
    (authCallback (fun _ => "h0") none "sk_g" "id0" 1 qSample statesSample storeSample =
      ⟨.authError, mapDelete statesSample ("state_" ++ jsStr (qLookup qSample "shop")),
       storeSample, true⟩ ∧
     CbResp.status .authError = 500 ∧
     (∀ (exchange2 : Option (String × Option String)) (genKey2 keyRowId2 : String) (now2 : Nat),
       (authCallback (fun _ => "h0") exchange2 genKey2 keyRowId2 now2 qSample
         (mapDelete statesSample ("state_" ++ jsStr (qLookup qSample "shop")))
         storeSample).resp = .invalidState) ∧
     CbResp.status .invalidState = 403) :=
  ⟨by decide, by decide, by decide,
   claimC10_state_consumed_on_failed_exchange (fun _ => "h0") "sk_g" "id0" 1 qSample
     statesSample storeSample ⟨"st0", 0⟩ (by decide) (by decide) (by decide)⟩

/-! ## C3 -/

/-- C3 (code bug): `server.js` destructures `deleteShopData` from
`./database`, but `database.js` never exports it, so the imported value is
`undefined`; the customers/redact handler has no try/catch.  Hence EVERY
request to `POST /api/webhooks/customers/redact` whose HMAC verifies ends
with an uncaught `TypeError` instead of deleting the shop's data and
returning 200, and the exception is not converted to a JSON error
response. -/
theorem claimC3_redact_throws_uncaught (hmacB64 : List Nat → String)
    (parseShopDomain : List Nat → Option String) (body : List Nat)
    (store : Store) :
    customersRedact hmacB64 (some (hmacB64 body)) parseShopDomain body store =
      .thrown "TypeError: deleteShopData is not a function" := by
  unfold customersRedact verifyShopifyWebhook
  simp [deleteShopData]

/-! ## C8 -/

/-- C8: revocation filters by both the key value and the authenticated shop.
Revoking key `a` while authenticated as `authShop` never touches the shops
or configs tables, keeps every key row not matching BOTH the value and the
shop, deactivates exactly the rows matching both, is a complete no-op when
the named key belongs to a different shop, and in that case the
authenticated DELETE endpoint answers 200 while leaving the store
unchanged. -/
theorem claimC8_revoke_scoped_to_shop (a authShop : String) (store : Store) :
    (revokeExtensionKey a authShop store).shops = store.shops ∧
    (revokeExtensionKey a authShop store).configs = store.configs ∧
    (∀ k ∈ store.keys, ¬ (k.accessKey = a ∧ k.shop = authShop) →
      k ∈ (revokeExtensionKey a authShop store).keys) ∧
    (∀ k ∈ store.keys, k.accessKey = a ∧ k.shop = authShop →
      { k with isActive := false } ∈ (revokeExtensionKey a authShop store).keys) ∧
    ((∀ k ∈ store.keys, k.accessKey = a → k.shop ≠ authShop) →
      revokeExtensionKey a authShop store = store) ∧
    (∀ (decode : String → Option JwtPayload) (authHeader : Option String) (tok : String),
      verifySessionToken decode authHeader store = .granted authShop tok →
      (∀ k ∈ store.keys, k.accessKey = a → k.shop ≠ authShop) →
      deleteExtensionKeyEndpoint decode authHeader a store = (200, store)) := by
  have hpoint : (∀ k ∈ store.keys, k.accessKey = a → k.shop ≠ authShop) →
      revokeExtensionKey a authShop store = store := by
    intro hno
    have hm : store.keys.map (fun k =>
        if k.accessKey == a && k.shop == authShop then { k with isActive := false } else k) =
        store.keys := by
      apply listMapId
      intro k hk
      have hcond : (k.accessKey == a && k.shop == authShop) = false := by
        cases h1 : (k.accessKey == a) <;> cases h2 : (k.shop == authShop) <;>
          simp_all [beq_iff_eq]
      simp [hcond]
    unfold revokeExtensionKey
    rw [hm]
  refine ⟨rfl, rfl, ?_, ?_, hpoint, ?_⟩
  · intro k hk hnk
    have hcond : (k.accessKey == a && k.shop == authShop) = false := by
      cases h1 : (k.accessKey == a) <;> cases h2 : (k.shop == authShop) <;>
        simp_all [beq_iff_eq]
    refine List.mem_map.mpr ⟨k, hk, ?_⟩
    simp [hcond]
  · intro k hk hand
    refine List.mem_map.mpr ⟨k, hk, ?_⟩
    simp [hand.1, hand.2]
  · intro decode authHeader tok hgrant hno
    unfold deleteExtensionKeyEndpoint
    rw [hgrant]
    simp [hpoint hno]

/-- A store for the C8 witness: the key `sk_x` belongs to
`other.myshopify.com`, not to the authenticated `foo.myshopify.com`. -/
def storeC8 : Store :=
  ⟨[⟨"foo.myshopify.com", "tokB", none, 0, none, true⟩,
    ⟨"other.myshopify.com", "tokA", none, 0, none, true⟩],
   [⟨"id1", "other.myshopify.com", "sk_x", none, none, true, 0⟩], []⟩

/-- Witness for C8: revoking another shop's key is a no-op and the endpoint
still answers 200 with the store unchanged. -/
theorem claimC8_witness :
    (∀ k ∈ storeC8.keys, k.accessKey = "sk_x" → k.shop ≠ "foo.myshopify.com") ∧
    revokeExtensionKey "sk_x" "foo.myshopify.com" storeC8 = storeC8 ∧
    deleteExtensionKeyEndpoint (fun _ => some ⟨some "https://foo.myshopify.com"⟩)
      (some "Bearer t") "sk_x" storeC8 = (200, storeC8) := by
  have hno : ∀ k ∈ storeC8.keys, k.accessKey = "sk_x" → k.shop ≠ "foo.myshopify.com" := by
    decide
  have hgrant : verifySessionToken (fun _ => some ⟨some "https://foo.myshopify.com"⟩)
      (some "Bearer t") storeC8 = .granted "foo.myshopify.com" "tokB" := by decide
  exact ⟨hno,
    (claimC8_revoke_scoped_to_shop "sk_x" "foo.myshopify.com" storeC8).2.2.2.2.1 hno,
    (claimC8_revoke_scoped_to_shop "sk_x" "foo.myshopify.com" storeC8).2.2.2.2.2
      (fun _ => some ⟨some "https://foo.myshopify.com"⟩) (some "Bearer t") "tokB" hgrant hno⟩

/-! ## Frame lemmas for `deleteShopSession` -/

/-- Every shop row with the deactivated domain ends up inactive with the
uninstall timestamp set. -/
theorem deleteShopSession_shops_target (sh : String) (now : Nat) (store : Store) :
    ∀ r ∈ (deleteShopSession sh now store).shops, r.shop = sh →
      r.isActive = false ∧ r.uninstalledAt = some now := by
  intro r hr hsh
  unfold deleteShopSession at hr
  rcases List.mem_map.mp hr with ⟨r0, hr0, heq⟩
  by_cases hc : (r0.shop == sh) = true
  · simp only [hc, if_true] at heq
    simp [← heq]
  · simp only [hc, if_false, Bool.false_eq_true] at heq
    subst heq
    exact absurd (beq_iff_eq.mpr hsh) (by simpa using hc)

/-- Every key row of the deactivated shop ends up inactive. -/
theorem deleteShopSession_keys_target (sh : String) (now : Nat) (store : Store) :
    ∀ k ∈ (deleteShopSession sh now store).keys, k.shop = sh → k.isActive = false := by
  intro k hk hsh
  unfold deleteShopSession at hk
  rcases List.mem_map.mp hk with ⟨k0, hk0, heq⟩
  by_cases hc : (k0.shop == sh) = true
  · simp only [hc, if_true] at heq
    simp [← heq]
  · simp only [hc, if_false, Bool.false_eq_true] at heq
    subst heq
    exact absurd (beq_iff_eq.mpr hsh) (by simpa using hc)

/-- Shop rows of other domains survive unchanged. -/
theorem deleteShopSession_shops_frame (sh : String) (now : Nat) (store : Store) :
    ∀ r ∈ store.shops, r.shop ≠ sh → r ∈ (deleteShopSession sh now store).shops := by
  intro r hr hne
  have hc : (r.shop == sh) = false := by simpa using hne
  refine List.mem_map.mpr ⟨r, hr, ?_⟩
  simp [hc]

/-- Key rows of other shops survive unchanged. -/
theorem deleteShopSession_keys_frame (sh : String) (now : Nat) (store : Store) :
    ∀ k ∈ store.keys, k.shop ≠ sh → k ∈ (deleteShopSession sh now store).keys := by
  intro k hk hne
  have hc : (k.shop == sh) = false := by simpa using hne
  refine List.mem_map.mpr ⟨k, hk, ?_⟩
  simp [hc]

/-! ## C2 -/

/-- C2 as amended: the uninstall webhook compares the supplied base64 HMAC
against the digest of the JSON reserialization of the raw body buffer
(`JSON.stringify(req.body)` with `req.body` a Buffer), not of the raw body
itself.  On a match it answers 200 and deactivates the shop named in the
`x-shopify-shop-domain` header together with all of its extension keys,
leaving every other record and the configs unchanged; on a mismatch it
answers 403 and leaves the store untouched. -/
theorem claimC2_uninstall_amended (hmacB64 : List Nat → String)
    (hmacHeader shopHeader : Option String) (body : List Nat) (now : Nat)
    (store : Store) :
    (hmacHeader = some (hmacB64 (strToBytes (jsonStringifyBuffer body))) →
      (appUninstalled hmacB64 hmacHeader shopHeader body now store).1 = 200 ∧
      (∀ r ∈ (appUninstalled hmacB64 hmacHeader shopHeader body now store).2.shops,
        r.shop = jsStr shopHeader → r.isActive = false ∧ r.uninstalledAt = some now) ∧
      (∀ k ∈ (appUninstalled hmacB64 hmacHeader shopHeader body now store).2.keys,
        k.shop = jsStr shopHeader → k.isActive = false) ∧
      (∀ r ∈ store.shops, r.shop ≠ jsStr shopHeader →
        r ∈ (appUninstalled hmacB64 hmacHeader shopHeader body now store).2.shops) ∧
      (∀ k ∈ store.keys, k.shop ≠ jsStr shopHeader →
        k ∈ (appUninstalled hmacB64 hmacHeader shopHeader body now store).2.keys) ∧
      (appUninstalled hmacB64 hmacHeader shopHeader body now store).2.configs = store.configs) ∧
    (¬ (hmacHeader = some (hmacB64 (strToBytes (jsonStringifyBuffer body)))) →
      appUninstalled hmacB64 hmacHeader shopHeader body now store = (403, store)) := by
  constructor
  · intro hmatch
    have hred : appUninstalled hmacB64 hmacHeader shopHeader body now store =
        (200, deleteShopSession (jsStr shopHeader) now store) := by
      unfold appUninstalled
      rw [if_neg (not_not_intro hmatch)]
    rw [hred]
    exact ⟨rfl,
      deleteShopSession_shops_target (jsStr shopHeader) now store,
      deleteShopSession_keys_target (jsStr shopHeader) now store,
      deleteShopSession_shops_frame (jsStr shopHeader) now store,
      deleteShopSession_keys_frame (jsStr shopHeader) now store, rfl⟩
  · intro hmiss
    unfold appUninstalled
    rw [if_pos hmiss]

/-- A store for the C2 theorems: one active shop with one active key. -/
def storeC2 : Store :=
  ⟨[⟨"a.myshopify.com", "tok", none, 0, none, true⟩],
   [⟨"kid", "a.myshopify.com", "sk_z", none, none, true, 0⟩], []⟩

/-- Counterexample to C2 as stated: an uninstall request whose supplied HMAC
equals the digest of the RAW request body (here the single byte 120, with
the digest primitive instantiated so the raw digest is `1`) is nevertheless
rejected with 403 and the shop stays active and untouched, because the code
digests `JSON.stringify` of the body buffer instead of the raw body. -/
theorem claimC2_counterexample :
    ((some "1" : Option String) = some ((fun bs : List Nat => toString bs.length) [120])) ∧
    appUninstalled (fun bs : List Nat => toString bs.length) (some "1")
      (some "a.myshopify.com") [120] 5 storeC2 = (403, storeC2) ∧
    getShopSession "a.myshopify.com" storeC2 =
      some ⟨"a.myshopify.com", "tok", none, 0, none, true⟩ := by
  refine ⟨rfl, ?_, by decide⟩
  decide

/-- Witness for the amended C2 at a concrete matching request: the shop and
its key are deactivated and the webhook answers 200. -/
theorem claimC2_witness :
    (appUninstalled (fun _ => "H") (some "H") (some "a.myshopify.com") [120] 7 storeC2).1 = 200 ∧
    (∀ r ∈ (appUninstalled (fun _ => "H") (some "H") (some "a.myshopify.com") [120] 7 storeC2).2.shops,
      r.shop = jsStr (some "a.myshopify.com") → r.isActive = false ∧ r.uninstalledAt = some 7) ∧
    (∀ k ∈ (appUninstalled (fun _ => "H") (some "H") (some "a.myshopify.com") [120] 7 storeC2).2.keys,
      k.shop = jsStr (some "a.myshopify.com") → k.isActive = false) ∧
    (∀ r ∈ storeC2.shops, r.shop ≠ jsStr (some "a.myshopify.com") →
      r ∈ (appUninstalled (fun _ => "H") (some "H") (some "a.myshopify.com") [120] 7 storeC2).2.shops) ∧
    (∀ k ∈ storeC2.keys, k.shop ≠ jsStr (some "a.myshopify.com") →
      k ∈ (appUninstalled (fun _ => "H") (some "H") (some "a.myshopify.com") [120] 7 storeC2).2.keys) ∧
    (appUninstalled (fun _ => "H") (some "H") (some "a.myshopify.com") [120] 7 storeC2).2.configs =
      storeC2.configs :=
  (claimC2_uninstall_amended (fun _ => "H") (some "H") (some "a.myshopify.com")
    [120] 7 storeC2).1 rfl

/-! ## C7 -/

/-- C7 as amended: for every shop, the extension-facing config read answers
404 when no config row exists; after a config write it answers 200 with
exactly the TEN whitelisted fields (the code projects ten fields, not six),
each matching what was written (with the model defaults filled in for absent
fields), and the projection never emits a field outside that whitelist. -/
theorem claimC7_sender_config_amended (shop : String) (c : ConfigInput) (store : Store) :
    (getSenderConfig shop store = none →
      getSenderConfigExtension shop store = (404, none)) ∧
    ((getSenderConfigExtension shop (saveSenderConfig shop c store)).1 = 200 ∧
     (getSenderConfigExtension shop (saveSenderConfig shop c store)).2 =
       some [("senderIdentificationType", some (c.senderIdentificationType.getD "1")),
             ("senderId", c.senderId),
             ("senderName", c.senderName),
             ("senderPhone", c.senderPhone),
             ("senderMail", c.senderMail),
             ("provinciaSender", some (c.provinciaSender.getD "1")),
             ("cantonSender", some (c.cantonSender.getD "1")),
             ("distritoSender", some (c.distritoSender.getD "1")),
             ("senderPostalCode", c.senderPostalCode),
             ("senderDirection", c.senderDirection)]) ∧
    (∀ cfg : SenderRec, (extConfigProjection cfg).map Prod.fst =
      ["senderIdentificationType", "senderId", "senderName", "senderPhone", "senderMail",
       "provinciaSender", "cantonSender", "distritoSender", "senderPostalCode",
       "senderDirection"]) := by
  refine ⟨?_, ?_, fun cfg => rfl⟩
  · intro hnone
    unfold getSenderConfigExtension
    rw [hnone]
  · have hfind : getSenderConfig shop (saveSenderConfig shop c store) =
        some ⟨shop,
          some (c.senderIdentificationType.getD "1"),
          c.senderId, c.senderName, c.senderPhone, c.senderMail,
          some (c.provinciaSender.getD "1"),
          some (c.cantonSender.getD "1"),
          some (c.distritoSender.getD "1"),
          c.senderPostalCode, c.senderDirection⟩ := by
      unfold getSenderConfig saveSenderConfig
      simp [List.find?]
    constructor
    · unfold getSenderConfigExtension
      rw [hfind]
    · unfold getSenderConfigExtension
      rw [hfind]
      rfl

/-- A fully populated config write for the C7 theorems. -/
def cfgC7 : ConfigInput :=
  ⟨some "2", some "id7", some "nm", some "ph", some "ml",
   some "3", some "4", some "5", some "pc", some "dir"⟩

/-- A store in which `cfgC7` has been written for the sample shop. -/
def storeC7 : Store :=
  saveSenderConfig "a.myshopify.com" cfgC7
    ⟨[⟨"a.myshopify.com", "tok", none, 0, none, true⟩], [], []⟩

/-- Counterexample to C7 as stated: after a write, the extension config read
returns TEN fields, not six. -/
theorem claimC7_counterexample :
    ((getSenderConfigExtension "a.myshopify.com" storeC7).2.map (fun l => l.map Prod.fst)) =
      some ["senderIdentificationType", "senderId", "senderName", "senderPhone", "senderMail",
            "provinciaSender", "cantonSender", "distritoSender", "senderPostalCode",
            "senderDirection"] ∧
    ((getSenderConfigExtension "a.myshopify.com" storeC7).2.map List.length) = some 10 ∧
    ((getSenderConfigExtension "a.myshopify.com" storeC7).2.map List.length) ≠ some 6 := by
  decide

/-- The empty store. -/
def storeEmpty : Store := ⟨[], [], []⟩

/-- Witness for the amended C7: on the empty store the read is 404, and after
writing `cfgC7` the read returns the ten written fields. -/
theorem claimC7_witness :
    getSenderConfigExtension "a.myshopify.com" storeEmpty = (404, none) ∧
    ((getSenderConfigExtension "a.myshopify.com"
        (saveSenderConfig "a.myshopify.com" cfgC7 storeEmpty)).1 = 200 ∧
     (getSenderConfigExtension "a.myshopify.com"
        (saveSenderConfig "a.myshopify.com" cfgC7 storeEmpty)).2 =
       some [("senderIdentificationType", some (cfgC7.senderIdentificationType.getD "1")),
             ("senderId", cfgC7.senderId),
             ("senderName", cfgC7.senderName),
             ("senderPhone", cfgC7.senderPhone),
             ("senderMail", cfgC7.senderMail),
             ("provinciaSender", some (cfgC7.provinciaSender.getD "1")),
             ("cantonSender", some (cfgC7.cantonSender.getD "1")),
             ("distritoSender", some (cfgC7.distritoSender.getD "1")),
             ("senderPostalCode", cfgC7.senderPostalCode),
             ("senderDirection", cfgC7.senderDirection)]) :=
  ⟨(claimC7_sender_config_amended "a.myshopify.com" cfgC7 storeEmpty).1 rfl,
   (claimC7_sender_config_amended "a.myshopify.com" cfgC7 storeEmpty).2.1⟩

/-! ## C4 -/

/-- Spec-words derivation for C4: the claim says the shop domain is obtained
by stripping the leading `https://` from `dest`; if `dest` does not begin
with it, nothing is removed.  (The code instead removes the FIRST occurrence
of the substring, wherever it sits.) -/
def stripLead (s pat : String) : String :=
  if strLeads s pat then ⟨s.data.drop pat.data.length⟩ else s

/-- C4 as amended: the session middleware decodes the bearer token without
any signature or expiry verification (the decode primitive alone determines
the payload), answers 401 when the token does not decode, or its payload
lacks a `dest` claim, or its `dest` claim is the empty string (the source
tests `!payload.dest`, whose falsiness makes an empty `dest` behave like a
missing one, before any shop lookup), derives the shop domain for a
nonempty `dest` by removing the FIRST occurrence of the substring
`https://` from it (which strips the leading protocol when present),
answers 401 when no active shop row exists for that domain, and otherwise
attaches that domain and its stored access token. -/
theorem claimC4_session_token_amended (decode : String → Option JwtPayload)
    (authHeader : Option String) (store : Store) :
    (authHeader = none →
      verifySessionToken decode authHeader store = .denied 401 "Missing authorization header") ∧
    (∀ h, authHeader = some h → strLeads h "Bearer " = true →
      (decode (replaceFirst h "Bearer ") = none →
        verifySessionToken decode authHeader store = .denied 401 "Invalid token format") ∧
      (∀ p, decode (replaceFirst h "Bearer ") = some p →
        (p.dest = none →
          verifySessionToken decode authHeader store = .denied 401 "Invalid token format") ∧
        (∀ d, p.dest = some d → d = "" →
          verifySessionToken decode authHeader store = .denied 401 "Invalid token format") ∧
        (∀ d, p.dest = some d → d ≠ "" →
          (getShopSession (replaceFirst d "https://") store = none →
            verifySessionToken decode authHeader store = .denied 401 "Shop not installed") ∧
          (∀ r, getShopSession (replaceFirst d "https://") store = some r →
            verifySessionToken decode authHeader store =
              .granted (replaceFirst d "https://") r.accessToken)))) := by
  constructor
  · intro hnone
    subst hnone
    rfl
  · intro h hah hlead
    subst hah
    constructor
    · intro hdec
      simp [verifySessionToken, hlead, hdec]
    · intro p hdec
      refine ⟨?_, ?_, ?_⟩
      · intro hdest
        simp [verifySessionToken, hlead, hdec, hdest]
      · intro d hdest hde
        simp [verifySessionToken, hlead, hdec, hdest, hde]
      · intro d hdest hne
        constructor
        · intro hshop
          simp [verifySessionToken, hlead, hdec, hdest, hne, hshop]
        · intro r hshop
          simp [verifySessionToken, hlead, hdec, hdest, hne, hshop,
            getShopSession_isActive hshop]

/-- Decode primitive for the C4 counterexample: a token whose `dest` contains
`https://` away from the head. -/
def decodeC4 : String → Option JwtPayload :=
  fun _ => some ⟨some "ahttps://shop.myshopify.com"⟩

/-- Store for the C4 counterexample: the only active shop is the mangled
domain the code derives. -/
def storeC4 : Store :=
  ⟨[⟨"ashop.myshopify.com", "tok4", none, 0, none, true⟩], [], []⟩

/-- Decode primitive for the second C4 counterexample input: a token whose
payload carries a `dest` claim that is the empty string. -/
def decodeC4e : String → Option JwtPayload := fun _ => some ⟨some ""⟩

/-- Store for the second C4 counterexample input: it holds an active shop
row whose domain is exactly the shop the claim derives from the empty
`dest`. -/
def storeC4e : Store := ⟨[⟨"", "tokE", none, 0, none, true⟩], [], []⟩

/-- Counterexample to C4 as stated, at two concrete inputs.
First input: for `dest = ahttps://shop.myshopify.com`, stripping the
`https://` PREFIX leaves the string unchanged and no active shop record
exists for it, so the claim mandates 401 — yet the middleware removes the
first occurrence of the substring, derives `ashop.myshopify.com` and grants
the request with that shop's token.  Second input: for `dest = ""` the
payload does have a `dest` claim and an active shop record exists for the
derived (empty) domain, so the claim mandates attaching it — yet the
middleware answers 401, because `!payload.dest` also fires on an empty
string; this input forces the empty-`dest` clause of the amendment. -/
theorem claimC4_counterexample :
    (stripLead "ahttps://shop.myshopify.com" "https://" = "ahttps://shop.myshopify.com" ∧
     getShopSession (stripLead "ahttps://shop.myshopify.com" "https://") storeC4 = none ∧
     verifySessionToken decodeC4 (some "Bearer t") storeC4 =
       .granted "ashop.myshopify.com" "tok4") ∧
    (stripLead "" "https://" = "" ∧
     getShopSession (stripLead "" "https://") storeC4e =
       some ⟨"", "tokE", none, 0, none, true⟩ ∧
     verifySessionToken decodeC4e (some "Bearer t") storeC4e =
       .denied 401 "Invalid token format") := by
  decide

/-- Witness for the amended C4: a well-formed token for the sample shop is
granted with the stored access token. -/
theorem claimC4_witness :
    verifySessionToken (fun _ => some ⟨some "https://foo.myshopify.com"⟩)
      (some "Bearer t") storeSample =
      .granted (replaceFirst "https://foo.myshopify.com" "https://")
        (ShopRec.accessToken ⟨"foo.myshopify.com", "tok0", none, 0, none, true⟩) :=
  ((((claimC4_session_token_amended (fun _ => some ⟨some "https://foo.myshopify.com"⟩)
      (some "Bearer t") storeSample).2 "Bearer t" rfl (by decide)).2
      ⟨some "https://foo.myshopify.com"⟩ rfl).2.2
      "https://foo.myshopify.com" rfl (by decide)).2
      ⟨"foo.myshopify.com", "tok0", none, 0, none, true⟩ (by decide)

/-! ## C9 -/

/-- The pending-state map obtained by starting the install flow for the
sample shop at time 300001 (just after the sweep that runs at 300000). -/
def statesC9 : StateMap :=
  (authInitiate "st0" 300001 (some "foo.myshopify.com") []).2

/-- C9: the OAuth callback's acceptance of a pending state depends only on
the stored state VALUE, never on its timestamp (first conjunct); and there
is a reachable trace — entry created at 300001, sweeps at 300000 and 600000
(the sweep only removes entries strictly older than 300000 ms), callback at
601001 — in which an entry aged 301000 ms survives the sweep and is still
accepted, so expiry is enforced solely by the sweep and an entry can be
honored at up to roughly twice the nominal lifetime. -/
theorem claimC9_expiry_only_by_sweep :
    (∀ (hmacHex : List Nat → String) (exchange : Option (String × Option String))
       (genKey keyRowId : String) (now : Nat) (q : Query)
       (states1 states2 : StateMap) (store : Store),
      (mapGet states1 ("state_" ++ jsStr (qLookup q "shop"))).map StoredState.state =
        (mapGet states2 ("state_" ++ jsStr (qLookup q "shop"))).map StoredState.state →
      (authCallback hmacHex exchange genKey keyRowId now q states1 store).resp =
        (authCallback hmacHex exchange genKey keyRowId now q states2 store).resp) ∧
    sweep 300000 ([] : StateMap) = [] ∧
    statesC9 = [("state_foo.myshopify.com", ⟨"st0", 300001⟩)] ∧
    sweep 600000 statesC9 = statesC9 ∧
    601001 - 300001 > 300000 ∧
    (authCallback (fun _ => "h0") (some ("t", none)) "sk_g" "id0" 601001 qSample
      statesC9 storeSample).resp =
      .appRedirect "https://foo.myshopify.com/admin/apps/SHOPIFY_API_KEY" := by
  refine ⟨?_, by decide, by decide, by decide, by decide, by decide⟩
  intro hmacHex exchange genKey keyRowId now q states1 states2 store hagree
  unfold authCallback
  cases hm1 : mapGet states1 ("state_" ++ jsStr (qLookup q "shop")) with
  | none =>
      have hm2 : mapGet states2 ("state_" ++ jsStr (qLookup q "shop")) = none := by
        rw [hm1] at hagree
        simpa using hagree.symm
      simp [hm1, hm2]
  | some sv1 =>
      have hex : ∃ sv2, mapGet states2 ("state_" ++ jsStr (qLookup q "shop")) = some sv2 ∧
          sv2.state = sv1.state := by
        rw [hm1] at hagree
        cases hm2 : mapGet states2 ("state_" ++ jsStr (qLookup q "shop")) with
        | none => rw [hm2] at hagree; simp at hagree
        | some sv2 =>
            rw [hm2] at hagree
            simp at hagree
            exact ⟨sv2, rfl, hagree.symm⟩
      rcases hex with ⟨sv2, hm2, hst⟩
      by_cases hq : qLookup q "state" = some sv1.state
      · have hq2 : qLookup q "state" = some sv2.state := by rw [hst]; exact hq
        by_cases hh : some (hmacHex (strToBytes (canonQS q))) = qLookup q "hmac"
        · cases exchange with
          | none => simp [hm1, hm2, hq, hq2, hh, hst]
          | some t =>
              obtain ⟨tok, scope⟩ := t
              cases hck : createExtensionKeyOp (jsStr (qLookup q "shop"))
                  (some "Access Key Inicial") genKey keyRowId now
                  (saveShopSession (jsStr (qLookup q "shop")) tok scope now store) with
              | none => simp [hm1, hm2, hq, hq2, hh, hst, hck]
              | some store2 => simp [hm1, hm2, hq, hq2, hh, hst, hck]
        · simp [hm1, hm2, hq, hq2, hh, hst]
      · have hq2 : ¬ (qLookup q "state" = some sv2.state) := by rw [hst]; exact hq
        simp [hm1, hm2, hq, hq2, hst]

/-- Witness for C9: two maps holding the same state value under the sample
key but timestamps 5 and 999999 produce the same callback response. -/
theorem claimC9_witness :
    ((mapGet [("state_foo.myshopify.com", (⟨"st0", 5⟩ : StoredState))]
        ("state_" ++ jsStr (qLookup qSample "shop"))).map StoredState.state =
      (mapGet [("state_foo.myshopify.com", (⟨"st0", 999999⟩ : StoredState))]
        ("state_" ++ jsStr (qLookup qSample "shop"))).map StoredState.state) ∧
    (authCallback (fun _ => "h0") (some ("t", none)) "sk_g" "id0" 1 qSample
        [("state_foo.myshopify.com", ⟨"st0", 5⟩)] storeSample).resp =
      (authCallback (fun _ => "h0") (some ("t", none)) "sk_g" "id0" 1 qSample
        [("state_foo.myshopify.com", ⟨"st0", 999999⟩)] storeSample).resp :=
  ⟨by decide,
   claimC9_expiry_only_by_sweep.1 (fun _ => "h0") (some ("t", none)) "sk_g" "id0" 1
     qSample [("state_foo.myshopify.com", ⟨"st0", 5⟩)]
     [("state_foo.myshopify.com", ⟨"st0", 999999⟩)] storeSample (by decide)⟩

/-! ## Helper lemmas for the extension-key middleware -/

/-- In a list pairwise-distinct under a projection, equal projections force
equal elements. -/
theorem pairwise_proj_eq {α β : Type} {f : α → β} {l : List α}
    (hp : l.Pairwise (fun a b => f a ≠ f b)) :
    ∀ a ∈ l, ∀ b ∈ l, f a = f b → a = b := by
  induction l with
  | nil => simp
  | cons x t ih =>
      rcases List.pairwise_cons.mp hp with ⟨hx, ht⟩
      intro a ha b hb hf
      rcases List.mem_cons.mp ha with rfl | ha2
      · rcases List.mem_cons.mp hb with rfl | hb2
        · rfl
        · exact absurd hf (hx b hb2)
      · rcases List.mem_cons.mp hb with rfl | hb2
        · exact absurd hf.symm (hx a ha2)
        · exact ih ht a ha2 b hb2 hf

/-- When every key row matching the token is revoked or owned by a shop all
of whose rows are inactive, the extension middleware denies the request and
leaves the store unchanged. -/
theorem verifyExt_denied_no_match (h : String) (now : Nat) (store : Store)
    (hlead : strLeads h "Bearer " = true)
    (hsk : strLeads (replaceFirst h "Bearer ") "sk_" = true)
    (hNo : ∀ k ∈ store.keys, k.accessKey = replaceFirst h "Bearer " →
      k.isActive = false ∨ (∀ s ∈ store.shops, s.shop = k.shop → s.isActive = false)) :
    verifyExtensionKey (some h) now store =
      (.denied 401 "Invalid or revoked access key", store) := by
  have hfind : store.keys.find? (keyJoinOk store (replaceFirst h "Bearer ")) = none := by
    rw [List.find?_eq_none]
    intro k hk
    unfold keyJoinOk
    by_cases ha : k.accessKey = replaceFirst h "Bearer "
    · rcases hNo k hk ha with hin | hsh
      · simp [hin]
      · have hany : store.shops.any (fun s => s.shop == k.shop && s.isActive) = false := by
          rw [List.any_eq_false]
          intro s hs
          by_cases hss : s.shop = k.shop
          · simp [hss, hsh s hs hss]
          · simp [hss]
        simp [hany]
    · simp [ha]
  unfold verifyExtensionKey validateExtensionKey
  simp [hlead, hsk, hfind]

/-- When a unique active key row of a uniquely-named active shop matches the
token, the extension middleware grants the request, attaching the shop and
its token, and stamps `lastUsedAt` on the key row. -/
theorem verifyExt_granted (h : String) (k : KeyRec) (s : ShopRec) (now : Nat)
    (store : Store)
    (hlead : strLeads h "Bearer " = true)
    (huk : store.keys.Pairwise (fun a b => a.accessKey ≠ b.accessKey))
    (hus : store.shops.Pairwise (fun a b => a.shop ≠ b.shop))
    (hkmem : k ∈ store.keys) (hacc : k.accessKey = replaceFirst h "Bearer ")
    (hact : k.isActive = true)
    (hsk : strLeads (replaceFirst h "Bearer ") "sk_" = true)
    (hsmem : s ∈ store.shops) (hshop : s.shop = k.shop) (hsact : s.isActive = true) :
    (verifyExtensionKey (some h) now store).1 = .granted k.shop s.accessToken ∧
    { k with lastUsedAt := some now } ∈ (verifyExtensionKey (some h) now store).2.keys := by
  have hjoin : keyJoinOk store (replaceFirst h "Bearer ") k = true := by
    unfold keyJoinOk
    simp only [hacc, hact, beq_self_eq_true, Bool.true_and, List.any_eq_true, Bool.and_eq_true,
      beq_iff_eq, true_and]
    exact ⟨s, hsmem, hshop, hsact⟩
  have hfindk : store.keys.find? (keyJoinOk store (replaceFirst h "Bearer ")) = some k := by
    apply find_uniq hkmem hjoin
    intro b hb hpb
    unfold keyJoinOk at hpb
    simp only [Bool.and_eq_true, beq_iff_eq] at hpb
    exact pairwise_proj_eq huk b hb k hkmem (by rw [hpb.1.1, hacc])
  have hfinds : store.shops.find? (fun s2 => s2.shop == k.shop && s2.isActive) = some s := by
    apply find_uniq hsmem (by simp [hshop, hsact])
    intro b hb hpb
    simp only [Bool.and_eq_true, beq_iff_eq] at hpb
    exact pairwise_proj_eq hus b hb s hsmem (by rw [hpb.1, hshop])
  constructor
  · unfold verifyExtensionKey validateExtensionKey
    simp [hlead, hsk, hfindk, hfinds]
  · unfold verifyExtensionKey validateExtensionKey
    simp only [hlead, hsk, hfindk, hfinds]
    simp [hlead, hsk]
    exact ⟨k, hkmem, by simp⟩

/-! ## C6 -/

/-- C6: the extension-key middleware answers 401 when the bearer token is
absent, not a Bearer header, not `sk_`-led, matched by no stored key that is
active and owned by an active shop — in particular a previously matching
key fails once revoked, and once its shop deactivates — and on success
grants the request with the owning shop's domain and access token while
stamping the key's last-used time. -/
theorem claimC6_extension_key_auth (authHeader : Option String) (now : Nat)
    (store : Store) :
    (authHeader = none →
      verifyExtensionKey authHeader now store =
        (.denied 401 "Missing authorization header", store)) ∧
    (∀ h, authHeader = some h → strLeads h "Bearer " = false →
      verifyExtensionKey authHeader now store =
        (.denied 401 "Missing authorization header", store)) ∧
    (∀ h, authHeader = some h → strLeads h "Bearer " = true →
      strLeads (replaceFirst h "Bearer ") "sk_" = false →
      verifyExtensionKey authHeader now store =
        (.denied 401 "Invalid access key format", store)) ∧
    (∀ h, authHeader = some h → strLeads h "Bearer " = true →
      strLeads (replaceFirst h "Bearer ") "sk_" = true →
      (∀ k ∈ store.keys, k.accessKey = replaceFirst h "Bearer " →
        k.isActive = false ∨ (∀ s ∈ store.shops, s.shop = k.shop → s.isActive = false)) →
      verifyExtensionKey authHeader now store =
        (.denied 401 "Invalid or revoked access key", store)) ∧
    (∀ h k s, authHeader = some h → strLeads h "Bearer " = true →
      store.keys.Pairwise (fun a b => a.accessKey ≠ b.accessKey) →
      store.shops.Pairwise (fun a b => a.shop ≠ b.shop) →
      k ∈ store.keys → k.accessKey = replaceFirst h "Bearer " → k.isActive = true →
      strLeads (replaceFirst h "Bearer ") "sk_" = true →
      s ∈ store.shops → s.shop = k.shop → s.isActive = true →
      (verifyExtensionKey authHeader now store).1 = .granted k.shop s.accessToken ∧
      { k with lastUsedAt := some now } ∈ (verifyExtensionKey authHeader now store).2.keys) ∧
    (∀ h k, authHeader = some h → strLeads h "Bearer " = true →
      strLeads (replaceFirst h "Bearer ") "sk_" = true →
      store.keys.Pairwise (fun a b => a.accessKey ≠ b.accessKey) →
      k ∈ store.keys → k.accessKey = replaceFirst h "Bearer " →
      verifyExtensionKey authHeader now (revokeExtensionKey k.accessKey k.shop store) =
        (.denied 401 "Invalid or revoked access key",
         revokeExtensionKey k.accessKey k.shop store)) ∧
    (∀ h k (now2 : Nat), authHeader = some h → strLeads h "Bearer " = true →
      strLeads (replaceFirst h "Bearer ") "sk_" = true →
      store.keys.Pairwise (fun a b => a.accessKey ≠ b.accessKey) →
      k ∈ store.keys → k.accessKey = replaceFirst h "Bearer " →
      verifyExtensionKey authHeader now (deleteShopSession k.shop now2 store) =
        (.denied 401 "Invalid or revoked access key",
         deleteShopSession k.shop now2 store)) := by
  refine ⟨?_, ?_, ?_, ?_, ?_, ?_, ?_⟩
  · intro hnone
    subst hnone
    rfl
  · intro h hah hl
    subst hah
    unfold verifyExtensionKey
    simp [hl]
  · intro h hah hlead hsk
    subst hah
    unfold verifyExtensionKey
    simp [hlead, hsk]
  · intro h hah hlead hsk hNo
    subst hah
    exact verifyExt_denied_no_match h now store hlead hsk hNo
  · intro h k s hah hlead huk hus hkmem hacc hact hsk hsmem hshop hsact
    subst hah
    exact verifyExt_granted h k s now store hlead huk hus hkmem hacc hact hsk hsmem hshop hsact
  · intro h k hah hlead hsk huk hkmem hacc
    subst hah
    apply verifyExt_denied_no_match _ _ _ hlead hsk
    intro k2 hk2 hacc2
    left
    unfold revokeExtensionKey at hk2
    rcases List.mem_map.mp hk2 with ⟨k0, hk0, heq⟩
    by_cases hc : (k0.accessKey == k.accessKey && k0.shop == k.shop) = true
    · simp only [hc, if_true] at heq
      simp [← heq]
    · simp only [hc, if_false, Bool.false_eq_true] at heq
      subst heq
      have hk0k : k0 = k :=
        pairwise_proj_eq huk k0 hk0 k hkmem (by rw [hacc2, hacc])
      subst hk0k
      simp at hc
  · intro h k now2 hah hlead hsk huk hkmem hacc
    subst hah
    apply verifyExt_denied_no_match _ _ _ hlead hsk
    intro k2 hk2 hacc2
    left
    unfold deleteShopSession at hk2
    rcases List.mem_map.mp hk2 with ⟨k0, hk0, heq⟩
    have hkeep : k2.accessKey = k0.accessKey := by
      by_cases hc : (k0.shop == k.shop) = true
      · simp only [hc, if_true] at heq
        simp [← heq]
      · simp only [hc, if_false, Bool.false_eq_true] at heq
        simp [← heq]
    have hk0k : k0 = k :=
      pairwise_proj_eq huk k0 hk0 k hkmem (by rw [← hkeep, hacc2, hacc])
    subst hk0k
    simp only [beq_self_eq_true, if_true] at heq
    simp [← heq]

/-- A store for the C6 witness: the sample shop with one active key. -/
def storeC6 : Store :=
  ⟨[⟨"foo.myshopify.com", "tok0", none, 0, none, true⟩],
   [⟨"id1", "foo.myshopify.com", "sk_abc", none, none, true, 0⟩], []⟩

/-- The key row of `storeC6`. -/
def keyRecC6 : KeyRec := ⟨"id1", "foo.myshopify.com", "sk_abc", none, none, true, 0⟩

/-- Witness for C6: the valid key is granted with the shop's token and its
last-used time is stamped, and the same request is denied 401 once the key
is revoked and once its shop is deactivated. -/
theorem claimC6_witness :
    ((verifyExtensionKey (some "Bearer sk_abc") 9 storeC6).1 =
      .granted keyRecC6.shop "tok0" ∧
     { keyRecC6 with lastUsedAt := some 9 } ∈
       (verifyExtensionKey (some "Bearer sk_abc") 9 storeC6).2.keys) ∧
    verifyExtensionKey (some "Bearer sk_abc") 9
        (revokeExtensionKey keyRecC6.accessKey keyRecC6.shop storeC6) =
      (.denied 401 "Invalid or revoked access key",
       revokeExtensionKey keyRecC6.accessKey keyRecC6.shop storeC6) ∧
    verifyExtensionKey (some "Bearer sk_abc") 9
        (deleteShopSession keyRecC6.shop 11 storeC6) =
      (.denied 401 "Invalid or revoked access key",
       deleteShopSession keyRecC6.shop 11 storeC6) :=
  ⟨(claimC6_extension_key_auth (some "Bearer sk_abc") 9 storeC6).2.2.2.2.1
      "Bearer sk_abc" keyRecC6 ⟨"foo.myshopify.com", "tok0", none, 0, none, true⟩
      rfl (by decide) (by decide) (by decide) (by decide) (by decide) rfl
      (by decide) (by decide) rfl rfl,
   (claimC6_extension_key_auth (some "Bearer sk_abc") 9 storeC6).2.2.2.2.2.1
      "Bearer sk_abc" keyRecC6 rfl (by decide) (by decide) (by decide)
      (by decide) (by decide),
   (claimC6_extension_key_auth (some "Bearer sk_abc") 9 storeC6).2.2.2.2.2.2
      "Bearer sk_abc" keyRecC6 11 rfl (by decide) (by decide) (by decide)
      (by decide) (by decide)⟩
